import Mathlib

/-!
Verification development for the GauditOCR invoice-normalization core
(`src/normalize.py`, `src/schemas.py`).

The Python code is shallowly embedded: Python `float` amounts are modelled as
exact rationals (`ℚ`); the invoice amounts handled by the pipeline are short
decimal numerals, for which rational arithmetic agrees with IEEE-754 double
arithmetic at every rounding step exercised by the theorems below.  Python's
`round(x, 2)` (banker's rounding) is modelled by `pyRound2`.  Optional values
(`None`) are modelled with `Option`.  Regular-expression searches are embedded
as explicit backtracking matchers that reproduce CPython's leftmost,
first-alternative, greedy/lazy semantics for the exact patterns appearing in
the source.
-/

set_option allowUnsafeReducibility true
set_option maxRecDepth 100000
set_option maxHeartbeats 2000000

attribute [semireducible] Rat.mul Rat.add Rat.inv Rat.div Rat.sub Rat.neg Rat.ofScientific

namespace GauditOCR

/-! ## Python-style numeric primitives -/

/-- Python 3 `round(q, 2)`: round to 2 decimal places, ties to even
(banker's rounding), on the exact rational value. -/
def pyRound2 (q : ℚ) : ℚ :=
  let x := q * 100
  let n : ℤ := ⌊x⌋
  let frac := x - (n : ℚ)
  let r : ℤ :=
    if frac < 1/2 then n
    else if frac > 1/2 then n + 1
    else if n % 2 = 0 then n else n + 1
  (r : ℚ) / 100

/-- Characters Python's `str.strip()` and `\s` treat as whitespace (ASCII part;
the inputs handled by the pipeline contain no exotic Unicode spaces). -/
def isSpaceC (c : Char) : Bool :=
  c = ' ' ∨ c = '\t' ∨ c = '\n' ∨ c = '\r' ∨ c = '\x0b' ∨ c = '\x0c'

def isDigitC (c : Char) : Bool := c.isDigit

/-- Python `\w` word characters: ASCII alphanumerics, underscore, and the
Latin accented letters occurring in this domain (Latin-1 Supplement and
Latin Extended-A/B letters; `×` and `÷` are excluded as in Unicode). -/
def isWordC (c : Char) : Bool :=
  c.isAlphanum ∨ c = '_' ∨
    (0xC0 ≤ c.toNat ∧ c.toNat ≤ 0x24F ∧ c.toNat ≠ 0xD7 ∧ c.toNat ≠ 0xF7)

/-- Lowercasing as Python `str.lower()` for the alphabet used by the source
(ASCII plus the Spanish/Catalan accented letters in the alias tables). -/
def pyLowerChar (c : Char) : Char :=
  match c with
  | 'Á' => 'á' | 'É' => 'é' | 'Í' => 'í' | 'Ó' => 'ó' | 'Ú' => 'ú'
  | 'Ü' => 'ü' | 'Ñ' => 'ñ' | 'Ç' => 'ç' | 'À' => 'à' | 'È' => 'è'
  | 'Ò' => 'ò' | 'Ï' => 'ï' | 'º' => 'º'
  | _ => c.toLower

def pyLower (s : String) : String := String.mk (s.toList.map pyLowerChar)

/-- Uppercasing as Python `str.upper()` for the same alphabet. -/
def pyUpperChar (c : Char) : Char :=
  match c with
  | 'á' => 'Á' | 'é' => 'É' | 'í' => 'Í' | 'ó' => 'Ó' | 'ú' => 'Ú'
  | 'ü' => 'Ü' | 'ñ' => 'Ñ' | 'ç' => 'Ç' | 'à' => 'À' | 'è' => 'È'
  | 'ò' => 'Ò' | 'ï' => 'Ï'
  | _ => c.toUpper

def pyUpper (s : String) : String := String.mk (s.toList.map pyUpperChar)

/-- Python `str.strip()` (no argument): trim whitespace at both ends. -/
def pyStrip (s : String) : String :=
  let l := (s.toList.dropWhile isSpaceC).reverse.dropWhile isSpaceC
  String.mk l.reverse

/-- Python `str.strip(chars)`: trim any of the given characters at both ends. -/
def pyStripChars (chars : List Char) (s : String) : String :=
  let p := fun c => chars.contains c
  String.mk (((s.toList.dropWhile p).reverse.dropWhile p).reverse)

/-- Replace all non-overlapping occurrences of `pat`, left to right
(Python `str.replace`). -/
def replaceAux (pat rep : List Char) : Nat → List Char → List Char
  | 0, rest => rest
  | _, [] => []
  | fuel + 1, c :: rest =>
    if pat.isPrefixOf (c :: rest) then
      rep ++ replaceAux pat rep fuel ((c :: rest).drop pat.length)
    else c :: replaceAux pat rep fuel rest

def replaceStr (s pat rep : String) : String :=
  if pat = "" then s
  else String.mk (replaceAux pat.toList rep.toList (s.toList.length + 1) s.toList)

/-- Split on each non-overlapping occurrence of a non-empty separator,
left to right (Python `str.split(sep)`). -/
def splitOnAux (sep : List Char) : Nat → List Char → List Char → List (List Char)
  | 0, _, acc => [acc.reverse]
  | _, [], acc => [acc.reverse]
  | fuel + 1, c :: rest, acc =>
    if sep.isPrefixOf (c :: rest) then
      acc.reverse :: splitOnAux sep fuel ((c :: rest).drop sep.length) []
    else splitOnAux sep fuel rest (c :: acc)

def splitOnStr (s sep : String) : List String :=
  if sep = "" then [s]
  else (splitOnAux sep.toList (s.toList.length + 1) s.toList []).map String.mk

def startsWithStr (s pre : String) : Bool := pre.toList.isPrefixOf s.toList

def endsWithStr (s suf : String) : Bool :=
  suf.toList.reverse.isPrefixOf s.toList.reverse

/-- Whitespace-separated tokens of a string (empty tokens dropped). -/
def splitWSAux : Nat → List Char → List String
  | 0, _ => []
  | _, [] => []
  | fuel + 1, cs =>
    let cs1 := cs.dropWhile isSpaceC
    match cs1 with
    | [] => []
    | _ =>
      let w := cs1.takeWhile (fun c => ¬ isSpaceC c)
      String.mk w :: splitWSAux fuel (cs1.drop w.length)

def splitWS (s : String) : List String := splitWSAux (s.toList.length + 1) s.toList

/-- Powers of ten in `ℚ` (structural, for the float parser). -/
def pow10 : Nat → ℚ
  | 0 => 1
  | n + 1 => 10 * pow10 n

/-- Python `str.splitlines()` restricted to `\n` separators: no trailing empty
element, and `"".splitlines() = []`. -/
def pySplitlines (s : String) : List String :=
  if s = "" then []
  else if endsWithStr s "\n" then (splitOnStr s "\n").dropLast
  else splitOnStr s "\n"

/-- Substring containment, as Python `sub in s`. -/
def containsSub (s sub : String) : Bool :=
  let cs := s.toList
  let t := sub.toList
  (List.range (cs.length + 1)).any (fun i => t.isPrefixOf (cs.drop i))

/-- Index of the first occurrence of `sub` in `s`, if any. -/
def indexOfSub (s sub : String) : Option Nat :=
  let cs := s.toList
  let t := sub.toList
  (List.range (cs.length + 1)).find? (fun i => t.isPrefixOf (cs.drop i))

/-- Python `s.split(sub, 1)[-1]`: the part after the first occurrence of
`sub`, or the whole string when `sub` does not occur. -/
def afterFirst (s sub : String) : String :=
  match indexOfSub s sub with
  | some i => String.mk ((s.toList).drop (i + sub.length))
  | none => s

/-- Digits of a natural number read into a rational (helper for float parsing). -/
def digitsVal (ds : List Char) : ℚ :=
  ds.foldl (fun a c => a * 10 + ((c.toNat - 48 : Nat) : ℚ)) 0

/-- Python `float(s)` on the numeral shapes produced by this pipeline:
optional sign, decimal digits with an optional single point, surrounding
whitespace allowed.  Exponents, inf/nan and digit underscores never occur in
the handled inputs and yield `none`. -/
def parsePyFloat (s : String) : Option ℚ :=
  let cs := (pyStrip s).toList
  let (sgn, cs1) : ℚ × List Char :=
    match cs with
    | '+' :: t => (1, t)
    | '-' :: t => (-1, t)
    | _ => (1, cs)
  let ds1 := cs1.takeWhile isDigitC
  let rest1 := cs1.drop ds1.length
  match rest1 with
  | [] => if ds1.isEmpty then none else some (sgn * digitsVal ds1)
  | '.' :: t =>
    let ds2 := t.takeWhile isDigitC
    let rest2 := t.drop ds2.length
    if rest2.isEmpty then
      if ds1.isEmpty ∧ ds2.isEmpty then none
      else some (sgn * (digitsVal ds1 + digitsVal ds2 / pow10 ds2.length))
    else none
  | _ => none

/-- Fractional decimal digits of `num/den` (den ≠ 0), with enough fuel for
every dyadic value a Python float can hold at the magnitudes in play. -/
def fracDigits : Nat → Nat → Nat → String
  | 0, _, _ => ""
  | _ + 1, 0, _ => ""
  | fuel + 1, num, den =>
    let num' := num * 10
    toString (num' / den) ++ fracDigits fuel (num' % den) den

/-- Python `str(x)` for a float modelled as a rational: decimal expansion with
a mandatory fractional part (`str(1.0) = "1.0"`).  The values the source ever
stringifies (snapped tax rates and raw field numbers) have short terminating
expansions. -/
def decimalRepr (q : ℚ) : String :=
  let sgn := if q < 0 then "-" else ""
  let n := q.num.natAbs
  let d := q.den
  let ip := n / d
  let rem := n % d
  let fr := if rem = 0 then "0" else fracDigits 60 rem d
  sgn ++ toString ip ++ "." ++ fr

/-- `_to_float` applied to a string: `float(x)`, and on failure
`float(str(x).replace(",", ".").replace(" ", ""))`, else `None`. -/
def to_float_str (s : String) : Option ℚ :=
  match parsePyFloat s with
  | some q => some q
  | none => parsePyFloat (replaceStr (replaceStr s "," ".") " " "")

/-- `_clean_name`: collapse whitespace runs to single spaces, strip, and
return `None` for the empty result. -/
def clean_name (s : String) : Option String :=
  let t := String.intercalate " " (splitWS s)
  if t = "" then none else some t

/-! ## Schemas (`src/schemas.py`) -/

/-- The fixed legal tax-rate table `IGI_RATES`. -/
def IGI_RATES : List ℚ := [0, 1, 5/2, 9/2, 19/2]

/-- First element of `l` minimizing `key` (Python `min(l, key=...)`,
first-minimal-wins); `l` is nonempty at every use site. -/
def minByFirst (key : ℚ → ℚ) (l : List ℚ) : ℚ :=
  match l with
  | [] => 0
  | x :: xs => xs.foldl (fun best y => if key y < key best then y else best) x

/-- `normalize_igi_rate`: snap an observed rate to the candidate in
`IGI_RATES` nearest to `round(rate, 2)`; `None` passes through. -/
def normalize_igi_rate (rate : Option ℚ) : Option ℚ :=
  match rate with
  | none => none
  | some r => some (minByFirst (fun x => |x - pyRound2 r|) IGI_RATES)

/-- `igi_code_from_rate`: `"IGI_" + str(r).replace(".", "_")` on the snapped
rate; `None` in, `None` out. -/
def igi_code_from_rate (rate : Option ℚ) : Option String :=
  match normalize_igi_rate rate with
  | none => none
  | some r => some ("IGI_" ++ replaceStr (decimalRepr r) "." "_")

/-- `Linea`: one invoice row (schemas.py). -/
structure Linea where
  descripcion : Option String := none
  cantidad : Option ℚ := none
  precio_unitario : Option ℚ := none
  tipo_igi : Option ℚ := none
  importe_igi : Option ℚ := none
  total_linea : Option ℚ := none
  cuenta_sage : Option String := none
  codigo_igi_sage : Option String := none
  deriving DecidableEq, Repr

/-! ## Per-line tax reconciliation (`_calc_missing_line_taxes`) -/

/-- `_calc_missing_line_taxes`: derive the line base from quantity×unit price,
else from total and snapped rate; fill `importe_igi` and a missing
`total_linea`; always rewrite `codigo_igi_sage` from the snapped rate. -/
def calc_missing_line_taxes (l : Linea) : Linea :=
  let base1 : Option ℚ :=
    match l.cantidad, l.precio_unitario with
    | some q, some p => some (pyRound2 (q * p))
    | _, _ => none
  let base2 : Option ℚ :=
    match base1 with
    | some b => some b
    | none =>
      match l.total_linea, l.tipo_igi with
      | some t, some rt =>
        let r := normalize_igi_rate (some rt)
        some (pyRound2 (t / (1 + r.getD 0 / 100)))
      | _, _ => none
  let r : Option ℚ :=
    match l.tipo_igi with
    | some rt => normalize_igi_rate (some rt)
    | none => none
  match r, base2 with
  | some rv, some b =>
    let imp := pyRound2 (b * (rv / 100))
    let tot : Option ℚ :=
      match l.total_linea with
      | none => some (pyRound2 (b + imp))
      | some t => some t
    { l with importe_igi := some imp, total_linea := tot,
             codigo_igi_sage := igi_code_from_rate r }
  | _, _ => { l with codigo_igi_sage := igi_code_from_rate r }

/-! ## Backtracking matchers for the money/percent/quantity regexes

Each Python regex in `normalize.py` is embedded as an explicit matcher over
`List Char`.  A sub-pattern is represented by the list of lengths it can
consume, in CPython's backtracking preference order (greedy: longest first;
alternation: left first; optional: present first).  A match at a position is
the first candidate whose continuation succeeds; a search takes the leftmost
position with a match. -/

/-- Length of the leading digit run. -/
def dRun (cs : List Char) : Nat := (cs.takeWhile isDigitC).length

/-- Candidate lengths `[n, n-1, …, 1]` (greedy `+`-like pieces). -/
def candsDown1 (n : Nat) : List Nat := (List.range n).reverse.map (· + 1)

/-- Candidate lengths `[n, n-1, …, 0]` (greedy `*`-like pieces). -/
def candsDown0 (n : Nat) : List Nat := (List.range (n + 1)).reverse

/-- Maximal repetitions of a 4-character thousands group `sep ddd`. -/
def thouMaxReps (p : Char → Bool) : List Char → Nat
  | c :: a :: b :: d :: rest =>
    if p c ∧ isDigitC a ∧ isDigitC b ∧ isDigitC d then 1 + thouMaxReps p rest
    else 0
  | _ => 0

/-- Candidate consumed lengths for `(?:sep\d{3})*`, greedy order. -/
def thouCands (p : Char → Bool) (cs : List Char) : List Nat :=
  (candsDown0 (thouMaxReps p cs)).map (· * 4)

/-- Candidate lengths for `(?:[\,\.]\d+)?`, greedy order (present, with the
longest digit run, first; absent last). -/
def decPlusCands (cs : List Char) : List Nat :=
  match cs with
  | c :: rest =>
    if c = ',' ∨ c = '.' then ((candsDown1 (dRun rest)).map (· + 1)) ++ [0]
    else [0]
  | [] => [0]

/-- Candidate lengths for the mandatory `[\,\.]\d{2}`. -/
def dec2Cands (cs : List Char) : List Nat :=
  match cs with
  | c :: rest => if (c = ',' ∨ c = '.') ∧ 2 ≤ dRun rest then [3] else []
  | [] => []

/-- Candidate lengths for `[-+]?` (consume the sign first when present). -/
def signCands (cs : List Char) : List Nat :=
  match cs with
  | c :: _ => if c = '-' ∨ c = '+' then [1, 0] else [0]
  | [] => [0]

/-- Thousands-separator class `[\.\s]` of the `num_pat` shapes. -/
def isThouSepA (c : Char) : Bool := c = '.' ∨ isSpaceC c

/-- Candidates for `num_pat = \d+(?:[\.\s]\d{3})*(?:[\,\.]\d+)?`. -/
def numACands (cs : List Char) : List Nat :=
  (candsDown1 (dRun cs)).flatMap (fun a =>
    (thouCands isThouSepA (cs.drop a)).flatMap (fun t =>
      (decPlusCands (cs.drop (a + t))).map (fun d => a + t + d)))

/-- Candidates for the first `RE_NUM` alternative
`\d{1,3}(?:[\.\s]\d{3})*(?:[\,\.]\d{2})`. -/
def numBCands (cs : List Char) : List Nat :=
  (candsDown1 (min 3 (dRun cs))).flatMap (fun a =>
    (thouCands isThouSepA (cs.drop a)).flatMap (fun t =>
      (dec2Cands (cs.drop (a + t))).map (fun d => a + t + d)))

/-- Candidates for the second `RE_NUM` alternative `\d+(?:[\,\.]\d{2})?`. -/
def numCCands (cs : List Char) : List Nat :=
  (candsDown1 (dRun cs)).flatMap (fun a =>
    ((dec2Cands (cs.drop a)) ++ [0]).map (fun d => a + d))

/-- One `RE_NUM` match attempt at the current position: candidates of the
full alternation `[-+]?alt1 | [-+]?alt2` in preference order. -/
def reNumMatchCands (cs : List Char) : List Nat :=
  ((signCands cs).flatMap (fun s => (numBCands (cs.drop s)).map (s + ·))) ++
  ((signCands cs).flatMap (fun s => (numCCands (cs.drop s)).map (s + ·)))

/-- `RE_NUM.findall`: leftmost non-overlapping matches, scanning forward. -/
def reNumFindallAux : Nat → List Char → List String
  | 0, _ => []
  | _, [] => []
  | fuel + 1, cs =>
    match (reNumMatchCands cs).head? with
    | some n => String.mk (cs.take n) :: reNumFindallAux fuel (cs.drop n)
    | none => reNumFindallAux fuel (cs.drop 1)

def reNumFindall (s : String) : List String :=
  reNumFindallAux (s.toList.length + 1) s.toList

/-- `_parse_money`: last `RE_NUM` match of the text (after removing `€` and
`EUR`), converted by `_to_float`; `None` when empty or matchless. -/
def parse_money (s : String) : Option ℚ :=
  if s = "" then none
  else
    let s1 := replaceStr (replaceStr s "€" "") "EUR" ""
    match (reNumFindall (pyStrip s1)).getLast? with
    | none => none
    | some x => to_float_str x

/-- One match attempt of `([-+]?\d{1,2}(?:[\,\.]\d+)?)\s*%` at the current
position; returns the group-1 length. -/
def pctMatchAt (cs : List Char) : Option Nat :=
  (signCands cs).findSome? (fun s =>
    (candsDown1 (min 2 (dRun (cs.drop s)))).findSome? (fun a =>
      (decPlusCands (cs.drop (s + a))).findSome? (fun d =>
        let g := s + a + d
        let ws := ((cs.drop g).takeWhile isSpaceC).length
        match cs.drop (g + ws) with
        | '%' :: _ => some g
        | _ => none)))

def pctSearchAux : Nat → List Char → Option String
  | 0, _ => none
  | _, [] => none
  | fuel + 1, cs =>
    match pctMatchAt cs with
    | some g => some (String.mk (cs.take g))
    | none => pctSearchAux fuel (cs.drop 1)

def pctSearch (s : String) : Option String :=
  pctSearchAux (s.toList.length + 1) s.toList

/-- `_pct_from_text`: the number preceding a `%`, else the whole text as a
bare number; `None` on `None`/empty input. -/
def pct_from_text (s : Option String) : Option ℚ :=
  match s with
  | none => none
  | some v =>
    if v = "" then none
    else
      match pctSearch v with
      | some g => to_float_str g
      | none => to_float_str v

/-- Horizontal whitespace `[^\S\r\n]`. -/
def isHws (c : Char) : Bool := isSpaceC c ∧ c ≠ '\r' ∧ c ≠ '\n'

/-- The multiplication marker `[x×]` under `re.IGNORECASE`. -/
def isXChar (c : Char) : Bool := c = 'x' ∨ c = 'X' ∨ c = '×'

/-- One match attempt of the composite-cell pattern
`(?P<qty>[-+]?num)[^\S\r\n]*[x×]\s*(?P<unit>num)` at the current position;
returns the two group strings. -/
def qtyUnitMatchAt (cs : List Char) : Option (String × String) :=
  (signCands cs).findSome? (fun s =>
    (numACands (cs.drop s)).findSome? (fun q =>
      let qe := s + q
      let rest1 := cs.drop qe
      let h := (rest1.takeWhile isHws).length
      match rest1.drop h with
      | c :: rest2 =>
        if isXChar c then
          let w := (rest2.takeWhile isSpaceC).length
          match (numACands (rest2.drop w)).head? with
          | some u =>
            some (String.mk (cs.take qe), String.mk ((rest2.drop w).take u))
          | none => none
        else none
      | [] => none))

def qtyUnitSearchAux : Nat → List Char → Option (String × String)
  | 0, _ => none
  | _, [] => none
  | fuel + 1, cs =>
    match qtyUnitMatchAt cs with
    | some r => some r
    | none => qtyUnitSearchAux fuel (cs.drop 1)

def qtyUnitSearch (s : String) : Option (String × String) :=
  qtyUnitSearchAux (s.toList.length + 1) s.toList

/-- `_extract_qty_unit`: split a `qty x price` composite cell; without a
multiplication marker the whole cell is the quantity. -/
def extract_qty_unit (cell : Option String) : Option ℚ × Option ℚ :=
  match cell with
  | none => (none, none)
  | some t =>
    if t = "" then (none, none)
    else
      match qtyUnitSearch t with
      | some (q, u) => (to_float_str q, to_float_str u)
      | none => (to_float_str t, none)

/-! ## The external document-understanding result (§6 boundary model)

The defensive attribute probing of the source (`value`/`content`/dict key)
is collapsed once at ingestion into optional-field structures, as the spec's
§9 design note prescribes for the embedding: a field object carries an
optional `value` (string, number, or item list) and an optional `content`
string; item records carry their unwrapped `properties` association list. -/

/-- A scalar Python value held by an item sub-field. -/
inductive AzScalar where
  | s (v : String)
  | n (v : ℚ)
  deriving DecidableEq, Repr

/-- A `DocumentField` inside an `Items` entry. -/
structure ItemField where
  value : Option AzScalar := none
  content : Option String := none
  deriving DecidableEq, Repr

/-- One structured item record, already unwrapped to its properties map. -/
structure AzItem where
  props : List (String × ItemField) := []
  deriving DecidableEq, Repr

/-- A value held by a top-level `DocumentField`: a string, a number, or the
`Items` list. -/
inductive AzVal where
  | s (v : String)
  | n (v : ℚ)
  | lst (v : List AzItem)
  deriving DecidableEq, Repr

/-- A top-level `DocumentField`. -/
structure AzField where
  value : Option AzVal := none
  content : Option String := none
  deriving DecidableEq, Repr

/-- One analyzed document: its named field map. -/
structure AzDoc where
  fields : List (String × AzField) := []
  deriving DecidableEq, Repr

/-- One OCR text line of a page. -/
structure AzLine where
  content : Option String := none
  text : Option String := none
  deriving DecidableEq, Repr

/-- One OCR table cell. -/
structure AzCell where
  row_index : Nat := 0
  column_index : Nat := 0
  content : Option String := none
  text : Option String := none
  deriving DecidableEq, Repr

/-- One OCR table. -/
structure AzTable where
  cells : List AzCell := []
  deriving DecidableEq, Repr

/-- One page: OCR lines and tables. -/
structure AzPage where
  lines : List AzLine := []
  tables : List AzTable := []
  deriving DecidableEq, Repr

/-- One key-value pair (the `content` of its key and value parts). -/
structure AzKV where
  key : Option String := none
  value : Option String := none
  deriving DecidableEq, Repr

/-- The whole external analysis result. -/
structure AzResult where
  documents : List AzDoc := []
  pages : List AzPage := []
  key_value_pairs : List AzKV := []
  deriving DecidableEq, Repr

/-- `_safeval` on a top-level field: the `value` unless it is `None` or the
empty string, else the `content` unless `None`/empty, else `None`. -/
def safevalF (f : AzField) : Option AzVal :=
  let fromContent : Option AzVal :=
    match f.content with
    | some c => if c = "" then none else some (AzVal.s c)
    | none => none
  match f.value with
  | some (AzVal.s v) => if v = "" then fromContent else some (AzVal.s v)
  | some v => some v
  | none => fromContent

/-- `_safeval` on an item sub-field. -/
def safevalI (f : ItemField) : Option AzScalar :=
  let fromContent : Option AzScalar :=
    match f.content with
    | some c => if c = "" then none else some (AzScalar.s c)
    | none => none
  match f.value with
  | some (AzScalar.s v) => if v = "" then fromContent else some (AzScalar.s v)
  | some v => some v
  | none => fromContent

/-- Python `str(x)` on a field value.  A float prints as its decimal
expansion; the repr of a raw item-object list is environment-specific and is
never consumed by any reconstruction path, so it is abstracted. -/
def azValToStr : AzVal → String
  | AzVal.s v => v
  | AzVal.n q => decimalRepr q
  | AzVal.lst _ => "[...]"

def azScalarToStr : AzScalar → String
  | AzScalar.s v => v
  | AzScalar.n q => decimalRepr q

/-- `_to_float` on a field value: numbers pass through, strings are parsed,
`float` raises (hence `None`) on an item list. -/
def to_float_val : Option AzVal → Option ℚ
  | some (AzVal.n q) => some q
  | some (AzVal.s v) => to_float_str v
  | some (AzVal.lst _) => none
  | none => none

def to_float_scalar : Option AzScalar → Option ℚ
  | some (AzScalar.n q) => some q
  | some (AzScalar.s v) => to_float_str v
  | none => none

/-- `_to_float` on an optional string (`None` stays `None`). -/
def to_float_opt (s : Option String) : Option ℚ := s.bind to_float_str

/-- `_clean_name(str(v))` on an optional field value. -/
def clean_name_val : Option AzVal → Option String
  | none => none
  | some v => clean_name (azValToStr v)

def clean_name_scalar : Option AzScalar → Option String
  | none => none
  | some v => clean_name (azScalarToStr v)

/-- Python truthiness of an optional string. -/
def truthyS : Option String → Bool
  | none => false
  | some s => s ≠ ""

/-- Python truthiness of a field value (`""`, `0.0` and `[]` are falsy). -/
def truthyV : Option AzVal → Bool
  | none => false
  | some (AzVal.s v) => v ≠ ""
  | some (AzVal.n q) => q ≠ 0
  | some (AzVal.lst l) => ¬ l.isEmpty

/-- `a or b` on optional strings (empty counts as falsy). -/
def pyOrOptS (a b : Option String) : Option String :=
  match a with
  | some v => if v = "" then b else some v
  | none => b

/-- `a or dflt` for a string result. -/
def pyOrS (a : Option String) (dflt : String) : String :=
  match a with
  | some v => if v = "" then dflt else v
  | none => dflt

/-! ## Flattened OCR text (`_text_from_result`) -/

/-- `_text_from_result`: page line texts (`content or text`, non-empty only)
followed by `"key: value"` renderings of the key-value pairs, joined by
newlines. -/
def text_from_result (result : AzResult) : String :=
  let pageLines := result.pages.flatMap (fun p =>
    p.lines.filterMap (fun ln =>
      match pyOrOptS ln.content ln.text with
      | some v => if v = "" then none else some v
      | none => none))
  let kvLines := result.key_value_pairs.filterMap (fun kv =>
    let k := (kv.key).getD ""
    let v := (kv.value).getD ""
    if k = "" ∧ v = "" then none
    else some (pyStrip (pyStripChars [':', ' '] (k ++ ": " ++ v))))
  String.intercalate "\n" (pageLines ++ kvLines)

/-! ## Tier 2: line items from OCR table grids (`_lines_from_tables`) -/

/-- Update one grid cell (bounds-checked as in the source). -/
def gridSet (g : List (List String)) (r k : Nat) (v : String) : List (List String) :=
  match g.get? r with
  | some row => g.set r (row.set k v)
  | none => g

/-- Materialize a table's cells into a rows × cols grid of stripped texts
(later cells overwrite earlier ones at the same coordinates). -/
def gridOfTable (t : AzTable) : List (List String) :=
  let cells := t.cells
  let rows := (cells.map (·.row_index)).foldl max 0 + 1
  let cols := (cells.map (·.column_index)).foldl max 0 + 1
  let init := (List.range rows).map (fun _ => (List.range cols).map (fun _ => ""))
  cells.foldl (fun g c =>
    let txt := pyOrS c.content (pyOrS c.text "")
    if c.row_index < rows ∧ c.column_index < cols then
      gridSet g c.row_index c.column_index (pyStrip txt)
    else g) init

/-- Header alias lists of `_lines_from_tables`, verbatim. -/
def descAliases : List String :=
  ["concepte", "concepte/description", "descripció", "descripción", "descripcion",
   "description", "concepto", "concepe"]

def qtyAliases : List String :=
  ["quantitat", "cantidad", "qty", "cant.", "cant", "unidades", "ud.", "uds", "qtd", "unitats"]

def unitAliases : List String :=
  ["preu", "preu unitari", "precio", "precio unitario", "unit price", "p. unit", "pu", "precio/u"]

def taxAliases : List String :=
  ["igi", "iva", "i.v.a.", "tax", "impuesto", "% igi", "%", "tipus igi", "tipo iva"]

def amtAliases : List String :=
  ["import", "amount", "total línea", "total linea", "total", "importe", "importe (€)", "neto",
   "base imp.", "base imp", "base"]

/-- `find(*alts)`: index of the first alias present in the lowered header
(alias priority, then first matching column). -/
def findCol (header : List String) (alts : List String) : Option Nat :=
  alts.findSome? (fun a => header.indexOf? a)

/-- Cell text of a mapped column for one data row. -/
def cellOpt (r : List String) (i : Option Nat) : Option String :=
  match i with
  | some j => r.get? j
  | none => none

/-- One data row of a mapped table, as processed by the source loop: skip
when every relevant cell is falsy; otherwise parse the quantity cell (which
may embed `qty x price`), take the embedded unit price when present and the
explicit unit column only otherwise, and reconcile the line. -/
def tableRowLinea (i_desc i_qty i_unit i_tax i_amt : Option Nat)
    (r : List String) : Option Linea :=
  let desc_txt := (cellOpt r i_desc).getD ""
  let qty_txt := cellOpt r i_qty
  let unit_txt := cellOpt r i_unit
  let tax_txt := cellOpt r i_tax
  let amount_txt := cellOpt r i_amt
  if desc_txt = "" ∧ ¬ truthyS qty_txt ∧ ¬ truthyS unit_txt ∧ ¬ truthyS amount_txt then
    none
  else
    let qu := extract_qty_unit qty_txt
    let unit : Option ℚ :=
      match qu.2 with
      | some u => some u
      | none => to_float_opt unit_txt
    some (calc_missing_line_taxes
      { descripcion := clean_name desc_txt
        cantidad := qu.1
        precio_unitario := unit
        tipo_igi := pct_from_text tax_txt
        total_linea := to_float_opt amount_txt })

/-- `_lines_from_tables`: all tables of all pages, in order; header-driven
column mapping; rows concatenated in table order. -/
def lines_from_tables (result : AzResult) : List Linea :=
  let tables := result.pages.flatMap (·.tables)
  tables.flatMap (fun t =>
    if t.cells.isEmpty then []
    else
      let grid := gridOfTable t
      if grid.isEmpty then []
      else
        let header := (grid.headD []).map pyLower
        let i_desc := findCol header descAliases
        let i_qty := findCol header qtyAliases
        let i_unit := findCol header unitAliases
        let i_tax := findCol header taxAliases
        let i_amt := findCol header amtAliases
        (grid.drop 1).filterMap (tableRowLinea i_desc i_qty i_unit i_tax i_amt))

/-! ## Word boundaries and keyword searches (the totals regexes) -/

def wordAt (cs : List Char) (p : Nat) : Bool :=
  match cs.get? p with
  | some c => isWordC c
  | none => false

/-- Python `\b` at position `p`. -/
def boundaryAt (cs : List Char) (p : Nat) : Bool :=
  (if p = 0 then false else wordAt cs (p - 1)) != wordAt cs p

def prefixAt (cs : List Char) (p : Nat) (lit : String) : Bool :=
  lit.toList.isPrefixOf (cs.drop p)

def spaceRunAt (cs : List Char) (p : Nat) : Nat :=
  ((cs.drop p).takeWhile isSpaceC).length

/-- `RE_SUBTOTAL = \bsub\s*total|subtotal\b` (IGNORECASE), as a hit test. -/
def reSubtotalHit (s : String) : Bool :=
  let cs := (pyLower s).toList
  (List.range (cs.length + 1)).any (fun p =>
    (boundaryAt cs p ∧ prefixAt cs p "sub" ∧
      prefixAt cs (p + 3 + spaceRunAt cs (p + 3)) "total")
    ∨ (prefixAt cs p "subtotal" ∧ boundaryAt cs (p + 8)))

/-- `RE_BASE_IMP = \b(base\s+imponible|base\s+imp\.?|b\.\s*i\.)\b`
(IGNORECASE).  The `b\.\s*i\.` alternative requires a word character right
after its final dot (trailing `\b`), mirroring the source pattern exactly. -/
def reBaseImpHit (s : String) : Bool :=
  let cs := (pyLower s).toList
  (List.range (cs.length + 1)).any (fun p =>
    boundaryAt cs p ∧
    ((prefixAt cs p "base" ∧
       (let w := spaceRunAt cs (p + 4)
        1 ≤ w ∧
        ((prefixAt cs (p + 4 + w) "imponible" ∧ boundaryAt cs (p + 4 + w + 9)) ∨
         (prefixAt cs (p + 4 + w) "imp." ∧ boundaryAt cs (p + 4 + w + 4)) ∨
         (prefixAt cs (p + 4 + w) "imp" ∧ boundaryAt cs (p + 4 + w + 3)))))
     ∨ (prefixAt cs p "b." ∧
         (let w := spaceRunAt cs (p + 2)
          prefixAt cs (p + 2 + w) "i." ∧ boundaryAt cs (p + 2 + w + 2)))))

/-- `RE_TOTAL = \btotal\b` (IGNORECASE). -/
def reTotalHit (s : String) : Bool :=
  let cs := (pyLower s).toList
  (List.range (cs.length + 1)).any (fun p =>
    boundaryAt cs p ∧ prefixAt cs p "total" ∧ boundaryAt cs (p + 5))

/-- `RE_TOTAL_IVA = \btotal\s+iva\b` (IGNORECASE). -/
def reTotalIvaHit (s : String) : Bool :=
  let cs := (pyLower s).toList
  (List.range (cs.length + 1)).any (fun p =>
    boundaryAt cs p ∧ prefixAt cs p "total" ∧
    (let w := spaceRunAt cs (p + 5)
     1 ≤ w ∧ prefixAt cs (p + 5 + w) "iva" ∧ boundaryAt cs (p + 5 + w + 3)))

/-- `RE_TOTAL_FACT = \btotal\s+factura\b` (IGNORECASE). -/
def reTotalFactHit (s : String) : Bool :=
  let cs := (pyLower s).toList
  (List.range (cs.length + 1)).any (fun p =>
    boundaryAt cs p ∧ prefixAt cs p "total" ∧
    (let w := spaceRunAt cs (p + 5)
     1 ≤ w ∧ prefixAt cs (p + 5 + w) "factura" ∧ boundaryAt cs (p + 5 + w + 7)))

/-- `RE_IVA_LINE = \b(iva|tax|impuesto)\b.*?(\d{1,2}(?:[\,\.]\d+)?%)?`
(IGNORECASE), as a hit test.  The pattern matches exactly when one of the
keywords occurs with word boundaries. -/
def reIvaLineHit (s : String) : Bool :=
  let cs := (pyLower s).toList
  (List.range (cs.length + 1)).any (fun p =>
    boundaryAt cs p ∧
    ((prefixAt cs p "iva" ∧ boundaryAt cs (p + 3)) ∨
     (prefixAt cs p "tax" ∧ boundaryAt cs (p + 3)) ∨
     (prefixAt cs p "impuesto" ∧ boundaryAt cs (p + 8))))

/-- Group 2 of `RE_IVA_LINE`.  The lazy `.*?` matches the empty string first
and the fully-optional tail then succeeds immediately, so the optional rate
group participates only if `\d` occurs right after the keyword's trailing
`\b` — impossible, since a digit there would destroy that boundary.  The
group is therefore `None` on every successful search. -/
def reIvaLineGroup2 (_ : String) : Option String := none

/-! ## The canonical record (`FacturaNormalizada`, schemas.py) -/

/-- `FacturaNormalizada`: the canonical output record, including the raw
Azure mirror fields (`azure_*`, schemas.py lines 67-71), whose defaults are
empty. -/
structure FacturaNormalizada where
  proveedor_nombre : Option String := none
  proveedor_nrt : Option String := none
  proveedor_direccion : Option String := none
  proveedor_razon_social : Option String := none
  cliente_nombre : Option String := none
  cliente_nrt : Option String := none
  cliente_direccion : Option String := none
  cliente_razon_social : Option String := none
  num_factura : Option String := none
  fecha : Option String := none
  fecha_vencimiento : Option String := none
  moneda : Option String := some "EUR"
  forma_pago : Option String := none
  base_imponible : Option ℚ := none
  igi : Option ℚ := none
  total : Option ℚ := none
  lineas : List Linea := []
  clasificacion_sage : Option String := none
  codigo_igi_sage : Option String := none
  azure_fields : List (String × AzVal) := []
  azure_items : List AzItem := []
  azure_kv_pairs : List AzKV := []
  azure_tables : List (List (List String)) := []
  deriving DecidableEq, Repr

/-! ## Free-text totals fallback (`_fill_totals_from_text`) -/

/-- Accumulated guesses of the totals scan. -/
structure TotGuess where
  base : Option ℚ := none
  iva : Option ℚ := none
  total : Option ℚ := none
  rate : Option ℚ := none
  deriving DecidableEq, Repr

/-- One line of the totals scan, updating the guesses exactly as the source
loop does (base: last match wins; iva/total: first match wins; the rate
guess can never be set because `RE_IVA_LINE`'s rate group never matches,
see `reIvaLineGroup2`). -/
def fillTotStep (f : FacturaNormalizada) (s : TotGuess) (ln : String) : TotGuess :=
  let l := pyStrip ln
  let s :=
    if (reSubtotalHit l ∨ reBaseImpHit l) ∧ f.base_imponible = none then
      match parse_money l with
      | some val => { s with base := some val }
      | none => s
    else s
  let s :=
    if reTotalIvaHit l ∧ s.iva = none then
      match parse_money l with
      | some val => { s with iva := some val }
      | none => s
    else s
  let s :=
    if reIvaLineHit l ∧ s.iva = none then
      let s' :=
        match parse_money l with
        | some val => { s with iva := some val }
        | none => s
      match reIvaLineGroup2 l, s'.rate with
      | some g2, none => { s' with rate := to_float_str (replaceStr g2 "%" "") }
      | _, _ => s'
    else s
  let s :=
    if (reTotalFactHit l ∨ reTotalHit l) ∧ s.total = none then
      match parse_money l with
      | some val => { s with total := some val }
      | none => s
    else s
  s

/-- `_fill_totals_from_text`: scan the text lines for subtotal/tax/total
keyword matches and complete the header figures that are still missing. -/
def fill_totals_from_text (text : String) (f : FacturaNormalizada) : FacturaNormalizada :=
  let g := (pySplitlines text).foldl (fillTotStep f) {}
  let f := if f.base_imponible = none ∧ g.base ≠ none then { f with base_imponible := g.base } else f
  let f := if f.igi = none ∧ g.iva ≠ none then { f with igi := g.iva } else f
  let f := if f.total = none ∧ g.total ≠ none then { f with total := g.total } else f
  let f :=
    match f.total, f.base_imponible, f.igi with
    | none, some b, some i => { f with total := some (pyRound2 (b + i)) }
    | _, _, _ => f
  let f :=
    match g.rate, f.codigo_igi_sage with
    | some r, none => { f with codigo_igi_sage := igi_code_from_rate (normalize_igi_rate (some r)) }
    | _, _ => f
  f

/-! ## Tier 3: line items from free OCR text (`_lines_from_text`) -/

/-- Captures of the generalized row pattern
`^\s*(?P<qty>[-+]?num(?:\s*[x×]\s*num)?)\s+(?P<desc>.+?)\s+(?P<unit>num)?\s+(?P<amount>[-+]?num)(?:\s+pct.*)?$`. -/
structure RowGroups where
  qty : String
  desc : String
  unit : Option String
  amount : String
  deriving DecidableEq, Repr

/-- Python `$` without MULTILINE: end of string, or just before a final
newline. -/
def dollarAt (cs : List Char) (p : Nat) : Bool :=
  p = cs.length ∨ (p + 1 = cs.length ∧ cs.get? p = some '\n')

/-- Candidates of the optional composite tail `(?:\s*[x×]\s*num)?` of the
quantity group, present-first. -/
def compCands (cs : List Char) (p : Nat) : List Nat :=
  let rest := cs.drop p
  let w1 := (rest.takeWhile isSpaceC).length
  (match rest.drop w1 with
   | c :: rest2 =>
     if isXChar c then
       let w2 := (rest2.takeWhile isSpaceC).length
       (numACands (rest2.drop w2)).map (fun q2 => w1 + 1 + w2 + q2)
     else []
   | [] => []) ++ [0]

/-- Candidates of the optional trailing `\s+pct.*` (before `$`),
present-first, where `pct = \d{1,2}(?:[\,\.]\d+)?\s*%`. -/
def rowTailCands (cs : List Char) (p : Nat) : List Nat :=
  (candsDown1 (spaceRunAt cs p)).flatMap (fun w =>
    (candsDown1 (min 2 (dRun (cs.drop (p + w))))).flatMap (fun a =>
      (decPlusCands (cs.drop (p + w + a))).flatMap (fun d =>
        let q := p + w + a + d
        let pw := spaceRunAt cs q
        match cs.drop (q + pw) with
        | '%' :: rest =>
          let dot := (rest.takeWhile (· ≠ '\n')).length
          (candsDown0 dot).map (fun t => w + a + d + pw + 1 + t)
        | _ => [])))

/-- One anchored match attempt of the row pattern (`row_re.match`), with
CPython's backtracking order: greedy pieces longest-first, the lazy
description shortest-first, optional groups present-first. -/
def rowMatch (cs : List Char) : Option RowGroups :=
  let sub := fun (p q : Nat) => String.mk ((cs.drop p).take (q - p))
  let w0 := (cs.takeWhile isSpaceC).length
  (signCands (cs.drop w0)).findSome? (fun sg =>
    (numACands (cs.drop (w0 + sg))).findSome? (fun q1 =>
      (compCands cs (w0 + sg + q1)).findSome? (fun comp =>
        let qEnd := w0 + sg + q1 + comp
        (candsDown1 (spaceRunAt cs qEnd)).findSome? (fun sep1 =>
          let dStart := qEnd + sep1
          let dotMax := ((cs.drop dStart).takeWhile (· ≠ '\n')).length
          ((List.range dotMax).map (· + 1)).findSome? (fun dLen =>
            let dEnd := dStart + dLen
            (candsDown1 (spaceRunAt cs dEnd)).findSome? (fun sep2 =>
              let uStart := dEnd + sep2
              (((numACands (cs.drop uStart)).map some ++ [none] : List (Option Nat))).findSome? (fun uo =>
                let uEnd := uStart + uo.getD 0
                (candsDown1 (spaceRunAt cs uEnd)).findSome? (fun sep3 =>
                  let aStart := uEnd + sep3
                  (signCands (cs.drop aStart)).findSome? (fun sa =>
                    (numACands (cs.drop (aStart + sa))).findSome? (fun am =>
                      let aEnd := aStart + sa + am
                      let tailOk :=
                        match (rowTailCands cs aEnd).find? (fun t => dollarAt cs (aEnd + t)) with
                        | some _ => true
                        | none => dollarAt cs aEnd
                      if tailOk then
                        some { qty := sub w0 qEnd
                               desc := sub dStart dEnd
                               unit := uo.map (fun u => sub uStart (uStart + u))
                               amount := sub aStart aEnd }
                      else none))))))))))

/-- `re.sub(r"^\s*x\s*", "", desc, IGNORECASE)`: strip one leading stray `x`
token (with surrounding whitespace) from a description. -/
def stripLeadingX (s : String) : String :=
  let cs := s.toList
  let w := (cs.takeWhile isSpaceC).length
  match cs.drop w with
  | c :: rest =>
    if c = 'x' ∨ c = 'X' then String.mk (rest.dropWhile isSpaceC) else s
  | [] => s

/-- One body line of the text tier: match the row pattern, split a composite
quantity, prefer the explicit unit group over the embedded one, clean and
de-`x` the description, and keep the line only when the description and at
least one numeric field survived. -/
def rowToLinea (ln : String) : Option Linea :=
  match rowMatch ln.toList with
  | none => none
  | some m =>
    let qtyRaw := m.qty
    let hasX := containsSub (pyLower qtyRaw) "x" ∨ containsSub (pyLower qtyRaw) "×"
    let qu : Option ℚ × Option ℚ :=
      if hasX then extract_qty_unit (some qtyRaw)
      else (to_float_str qtyRaw, none)
    let unit : Option ℚ :=
      match m.unit with
      | some u => to_float_str u
      | none => qu.2
    let amount := to_float_str m.amount
    let desc : Option String :=
      match clean_name m.desc with
      | some d => some (stripLeadingX d)
      | none => none
    if truthyS desc ∧ (qu.1 ≠ none ∨ unit ≠ none ∨ amount ≠ none) then
      some (calc_missing_line_taxes
        { descripcion := desc
          cantidad := qu.1
          precio_unitario := unit
          tipo_igi := none
          total_linea := amount })
    else none

/-- `_lines_from_text`: find the 3-line header window, delimit the body at
the first subtotal/base/total line, and parse each body row. -/
def lines_from_text (text : String) : List Linea :=
  let lines := ((pySplitlines text).map pyStrip).filter (· ≠ "")
  if lines.isEmpty then []
  else
    let headerIdx : Option Nat := (List.range lines.length).findSome? (fun i =>
      let window := pyLower (String.intercalate " | " ((lines.drop i).take 3))
      if (containsSub window "cant" ∨ containsSub window "cantidad")
         ∧ (containsSub window "concep" ∨ containsSub window "descrip")
         ∧ (containsSub window "precio" ∨ containsSub window "importe" ∨
            containsSub window "neto" ∨ containsSub window "base imp" ∨
            containsSub window "b.i.")
      then some (i + min 2 (lines.length - i - 1)) else none)
    match headerIdx with
    | none => []
    | some hIdx =>
      let endIdx := ((List.range lines.length).find? (fun j =>
        hIdx + 1 ≤ j ∧
        (let lj := pyLower (lines.getD j "")
         startsWithStr lj "subtotal" ∨ startsWithStr lj "base imponible" ∨
         startsWithStr lj "total"))).getD lines.length
      let body := ((lines.drop (hIdx + 1)).take (endIdx - (hIdx + 1))).filter (fun b =>
        ¬ containsSub (pyLower b) "sin líneas" ∧ ¬ containsSub (pyLower b) "sin lineas")
      if body.isEmpty then []
      else body.filterMap rowToLinea

/-! ## Taxpayer-identifier extraction (schemas `try_extract_nrt`,
normalize `_normalize_nrt`) -/

/-- Case-insensitive literal prefix test. -/
def ciPrefixAt (cs : List Char) (p : Nat) (lit : String) : Bool :=
  lit.toList.isPrefixOf ((cs.drop p).take lit.length |>.map pyLowerChar)

/-- Candidates for an optional single-character class, present-first. -/
def optClassCands (p : Char → Bool) (cs : List Char) : List Nat :=
  match cs with
  | c :: _ => if p c then [1, 0] else [0]
  | [] => [0]

def isSepNrt (c : Char) : Bool := c = '-' ∨ isSpaceC c

def isUpperAlphaCI (c : Char) : Bool := ('A' ≤ c ∧ c ≤ 'Z') ∨ ('a' ≤ c ∧ c ≤ 'z')

def charAt (cs : List Char) (p : Nat) : Option Char := cs.get? p

/-- `RE_NRT_AND = \b([AELF])[-\s]?(\d{6})[-\s]?([A-Z])\b` (IGNORECASE),
returning the formatted `g1-g2-g3`. -/
def nrtAndSearch (s : String) : Option String :=
  let cs := s.toList
  (List.range (cs.length + 1)).findSome? (fun p =>
    if ¬ boundaryAt cs p then none
    else
      match charAt cs p with
      | some c0 =>
        if "aelf".toList.contains (pyLowerChar c0) then
          (optClassCands isSepNrt (cs.drop (p + 1))).findSome? (fun s1 =>
            let dStart := p + 1 + s1
            if 6 ≤ dRun (cs.drop dStart) ∧ ((cs.drop dStart).take 6).all isDigitC then
              (optClassCands isSepNrt (cs.drop (dStart + 6))).findSome? (fun s2 =>
                let lPos := dStart + 6 + s2
                match charAt cs lPos with
                | some c1 =>
                  if isUpperAlphaCI c1 ∧ boundaryAt cs (lPos + 1) then
                    some (String.mk ([c0, '-'] ++ (cs.drop dStart).take 6 ++ ['-', c1]))
                  else none
                | none => none)
            else none)
        else none
      | none => none)

/-- `RE_CIF_ES = \b([ABCDEFGHJKLMNPQRSUVW])(\d{7})([0-9A-J])\b`
(IGNORECASE), returning the concatenated groups. -/
def cifSearch (s : String) : Option String :=
  let cs := s.toList
  (List.range (cs.length + 1)).findSome? (fun p =>
    if ¬ boundaryAt cs p then none
    else
      match charAt cs p with
      | some c0 =>
        if "abcdefghjklmnpqrsuvw".toList.contains (pyLowerChar c0) then
          if 7 ≤ dRun (cs.drop (p + 1)) then
            match charAt cs (p + 8) with
            | some c1 =>
              if ("abcdefghij".toList.contains (pyLowerChar c1) ∨ c1.isDigit)
                 ∧ boundaryAt cs (p + 9) then
                some (String.mk ([c0] ++ (cs.drop (p + 1)).take 7 ++ [c1]))
              else none
            | none => none
          else none
        else none
      | none => none)

/-- `RE_NIE_ES = \b([XYZ])(\d{7})([A-Z])\b` (IGNORECASE). -/
def nieSearch (s : String) : Option String :=
  let cs := s.toList
  (List.range (cs.length + 1)).findSome? (fun p =>
    if ¬ boundaryAt cs p then none
    else
      match charAt cs p with
      | some c0 =>
        if "xyz".toList.contains (pyLowerChar c0) then
          if 7 ≤ dRun (cs.drop (p + 1)) then
            match charAt cs (p + 8) with
            | some c1 =>
              if isUpperAlphaCI c1 ∧ boundaryAt cs (p + 9) then
                some (String.mk ([c0] ++ (cs.drop (p + 1)).take 7 ++ [c1]))
              else none
            | none => none
          else none
        else none
      | none => none)

/-- `RE_NIF_ES = \b(\d{8})([A-Z])\b` (IGNORECASE). -/
def nifSearch (s : String) : Option String :=
  let cs := s.toList
  (List.range (cs.length + 1)).findSome? (fun p =>
    if ¬ boundaryAt cs p then none
    else
      if 8 ≤ dRun (cs.drop p) then
        match charAt cs (p + 8) with
        | some c1 =>
          if isUpperAlphaCI c1 ∧ boundaryAt cs (p + 9) then
            some (String.mk ((cs.drop p).take 8 ++ [c1]))
          else none
        | none => none
      else none)

/-- `FacturaNormalizada.try_extract_nrt`: the four regional patterns in
priority order, on `str(text).upper()`; falsy input gives `None`. -/
def try_extract_nrt (text : Option AzVal) : Option String :=
  match text with
  | none => none
  | some v =>
    if ¬ truthyV (some v) then none
    else
      let t := pyUpper (azValToStr v)
      match nrtAndSearch t with
      | some r => some r
      | none =>
        match cifSearch t with
        | some r => some r
        | none =>
          match nieSearch t with
          | some r => some r
          | none => nifSearch t

/-- `_normalize_nrt` on a string: uppercase, drop spaces, collapse `--`, and
hyphenate an unseparated code of length ≥ 8 as `c-cccccc-c`. -/
def normalize_nrt (raw : Option String) : Option String :=
  match raw with
  | none => none
  | some r0 =>
    if r0 = "" then none
    else
      let r := replaceStr (replaceStr (pyUpper r0) " " "") "--" "-"
      let l := r.toList
      if ¬ l.contains '-' ∧ 8 ≤ l.length then
        some (String.mk ([l.headD ' ', '-'] ++ (l.drop 1).take 6 ++ ['-', l.getLastD ' ']))
      else some r

/-- `_normalize_nrt` applied to a raw field value.  A numeric or list value
would raise `AttributeError` in the source (only caught at the batch
boundary); within the normalization core that path is unreachable and is
modelled as `None`. -/
def normalize_nrt_val : Option AzVal → Option String
  | some (AzVal.s t) => normalize_nrt (some t)
  | some (AzVal.n q) => if q = 0 then none else none
  | some (AzVal.lst _) => none
  | none => none

/-! ## OCR-text field regexes of the no-documents branch -/

/-- `RE_EMPRESA`'s leading class `[A-ZÁÉÍÓÚÜÑ]`. -/
def isEmpC1 (c : Char) : Bool :=
  ('A' ≤ c ∧ c ≤ 'Z') ∨ ['Á', 'É', 'Í', 'Ó', 'Ú', 'Ü', 'Ñ'].contains c

/-- `RE_EMPRESA`'s body class `[A-ZÁÉÍÓÚÜÑ\.\,&\s]`. -/
def isEmpC2 (c : Char) : Bool :=
  isEmpC1 c ∨ c = '.' ∨ c = ',' ∨ c = '&' ∨ isSpaceC c

/-- Sequencing of candidate-length matchers. -/
def seqC (a b : List Char → List Nat) (cs : List Char) : List Nat :=
  (a cs).flatMap (fun n => (b (cs.drop n)).map (n + ·))

def litC (c : Char) (cs : List Char) : List Nat :=
  match cs with
  | d :: _ => if d = c then [1] else []
  | [] => []

def optC (c : Char) (cs : List Char) : List Nat :=
  match cs with
  | d :: _ => if d = c then [1, 0] else [0]
  | [] => [0]

def litS (l : String) (cs : List Char) : List Nat :=
  if l.toList.isPrefixOf cs then [l.toList.length] else []

/-- Company-suffix alternation of `RE_EMPRESA`
`(?:S\.?L\.?U?\.?|S\.?A\.?U?\.?|S\.?L\.?|S\.?A\.?|INC\.?|LLC|LTD|GMBH)`,
alternatives in source order, optional dots present-first. -/
def empSuffixCands (cs : List Char) : List Nat :=
  seqC (litC 'S') (seqC (optC '.') (seqC (litC 'L') (seqC (optC '.') (seqC (optC 'U') (optC '.'))))) cs ++
  seqC (litC 'S') (seqC (optC '.') (seqC (litC 'A') (seqC (optC '.') (seqC (optC 'U') (optC '.'))))) cs ++
  seqC (litC 'S') (seqC (optC '.') (seqC (litC 'L') (optC '.'))) cs ++
  seqC (litC 'S') (seqC (optC '.') (seqC (litC 'A') (optC '.'))) cs ++
  seqC (litS "INC") (optC '.') cs ++
  litS "LLC" cs ++
  litS "LTD" cs ++
  litS "GMBH" cs

/-- `RE_EMPRESA`: an uppercase company name of ≥ 3 body characters ending in
a legal-form suffix, with word boundaries; lazy body (shortest first). -/
def empresaSearch (s : String) : Option String :=
  let cs := s.toList
  (List.range (cs.length + 1)).findSome? (fun p =>
    if ¬ boundaryAt cs p then none
    else
      match charAt cs p with
      | some c0 =>
        if isEmpC1 c0 then
          let bodyMax := ((cs.drop (p + 1)).takeWhile isEmpC2).length
          (if 3 ≤ bodyMax then
            ((List.range (bodyMax - 2)).map (· + 3)).findSome? (fun k =>
              (empSuffixCands (cs.drop (p + 1 + k))).findSome? (fun e =>
                if boundaryAt cs (p + 1 + k + e) then
                  some (String.mk ((cs.drop p).take (1 + k + e)))
                else none))
          else none)
        else none
      | none => none)

/-- Keyword alternation of `RE_FACTURA_ID`
`(?:Factura|FACTURA|Nº\s*Factura|N[ºo]\s*Factura|Num(?:ero)?\s*Factura|Invoice|FV)`
(IGNORECASE), candidate lengths in source order. -/
def factIdKwCands (cs : List Char) (p : Nat) : List Nat :=
  let factAfter := fun (q : Nat) => if ciPrefixAt cs q "factura" then [(7 : Nat)] else []
  (if ciPrefixAt cs p "factura" then [(7 : Nat)] else []) ++
  (if ciPrefixAt cs p "factura" then [(7 : Nat)] else []) ++
  (if ciPrefixAt cs p "nº" then
    (let w := spaceRunAt cs (p + 2); (factAfter (p + 2 + w)).map (2 + w + ·))
   else []) ++
  (match charAt cs p with
   | some c =>
     if pyLowerChar c = 'n' then
       (match charAt cs (p + 1) with
        | some c1 =>
          if c1 = 'º' ∨ pyLowerChar c1 = 'o' then
            (let w := spaceRunAt cs (p + 2); (factAfter (p + 2 + w)).map (2 + w + ·))
          else []
        | none => [])
     else []
   | none => []) ++
  (if ciPrefixAt cs p "num" then
    ((if ciPrefixAt cs (p + 3) "ero" then
        (let w := spaceRunAt cs (p + 6); (factAfter (p + 6 + w)).map (6 + w + ·))
      else []) ++
     (let w := spaceRunAt cs (p + 3); (factAfter (p + 3 + w)).map (3 + w + ·)))
   else []) ++
  (if ciPrefixAt cs p "invoice" then [(7 : Nat)] else []) ++
  (if ciPrefixAt cs p "fv" then [(2 : Nat)] else [])

/-- Group class `[A-Z0-9\-\/]` of `RE_FACTURA_ID` under IGNORECASE. -/
def isFactIdChar (c : Char) : Bool :=
  isUpperAlphaCI c ∨ c.isDigit ∨ c = '-' ∨ c = '/'

/-- `RE_FACTURA_ID`: keyword, optional separator, and the invoice identifier
(group 1), with a trailing word boundary. -/
def facturaIdSearch (s : String) : Option String :=
  let cs := s.toList
  (List.range (cs.length + 1)).findSome? (fun p =>
    if ¬ boundaryAt cs p then none
    else
      (factIdKwCands cs p).findSome? (fun k =>
        let q0 := p + k
        let w1 := spaceRunAt cs q0
        (optClassCands (fun c => c = ':' ∨ c = '-') (cs.drop (q0 + w1))).findSome? (fun sep =>
          let q1 := q0 + w1 + sep
          let w2 := spaceRunAt cs q1
          let gStart := q1 + w2
          let run := ((cs.drop gStart).takeWhile isFactIdChar).length
          (candsDown1 run).findSome? (fun g =>
            if boundaryAt cs (gStart + g) then
              some (String.mk ((cs.drop gStart).take g))
            else none))))

/-- `RE_FECHA = \b(\d{2}[\/\-]\d{2}[\/\-]\d{4})\b`. -/
def fechaSearch (s : String) : Option String :=
  let cs := s.toList
  let isSep := fun (c : Option Char) => c = some '/' ∨ c = some '-'
  (List.range (cs.length + 1)).findSome? (fun p =>
    if boundaryAt cs p
       ∧ ((cs.drop p).take 2).length = 2 ∧ ((cs.drop p).take 2).all isDigitC
       ∧ isSep (charAt cs (p + 2))
       ∧ ((cs.drop (p + 3)).take 2).length = 2 ∧ ((cs.drop (p + 3)).take 2).all isDigitC
       ∧ isSep (charAt cs (p + 5))
       ∧ ((cs.drop (p + 6)).take 4).length = 4 ∧ ((cs.drop (p + 6)).take 4).all isDigitC
       ∧ boundaryAt cs (p + 10) then
      some (String.mk ((cs.drop p).take 10))
    else none)

/-- `RE_MONEDA = \b(EUR|€)\b` (IGNORECASE), as a hit test. -/
def monedaHit (s : String) : Bool :=
  let cs := s.toList
  (List.range (cs.length + 1)).any (fun p =>
    boundaryAt cs p ∧
    ((ciPrefixAt cs p "eur" ∧ boundaryAt cs (p + 3)) ∨
     (charAt cs p = some '€' ∧ boundaryAt cs (p + 1))))

/-- `RE_DUE = \b(fecha\s*vencimiento|due\s*date)\b[:\-\s]*([0-9\/\-]{8,10})`
(IGNORECASE), returning group 2 (the date text). -/
def dueSearch (s : String) : Option String :=
  let cs := s.toList
  let isSepCls := fun (c : Char) => c = ':' ∨ c = '-' ∨ isSpaceC c
  let isDateCls := fun (c : Char) => c.isDigit ∨ c = '/' ∨ c = '-'
  (List.range (cs.length + 1)).findSome? (fun p =>
    if ¬ boundaryAt cs p then none
    else
      let kwCands : List Nat :=
        (if ciPrefixAt cs p "fecha" then
          (let w := spaceRunAt cs (p + 5)
           if ciPrefixAt cs (p + 5 + w) "vencimiento" then [5 + w + 11] else [])
         else []) ++
        (if ciPrefixAt cs p "due" then
          (let w := spaceRunAt cs (p + 3)
           if ciPrefixAt cs (p + 3 + w) "date" then [3 + w + 4] else [])
         else [])
      kwCands.findSome? (fun k =>
        if ¬ boundaryAt cs (p + k) then none
        else
          let sepRun := ((cs.drop (p + k)).takeWhile isSepCls).length
          (candsDown0 sepRun).findSome? (fun w =>
            let gStart := p + k + w
            let run := ((cs.drop gStart).takeWhile isDateCls).length
            if 8 ≤ run then
              some (String.mk ((cs.drop gStart).take (min 10 run)))
            else none)))

/-- `_extract_block`: the cleaned text below a header line up to the next
stop keyword. -/
def extractBlockAux (headerL : String) (stops : List String) :
    List String → Bool → List String → List String
  | [], _, out => out.reverse
  | ln :: rest, active, out =>
    let l := pyStrip ln
    if l = "" then extractBlockAux headerL stops rest active out
    else if ¬ active then
      if containsSub (pyLower l) headerL then
        let post := pyStripChars [':', ' ', '-'] (afterFirst (pyLower l) headerL)
        if post ≠ "" ∧ post ≠ pyLower l then
          extractBlockAux headerL stops rest true (pyStrip (afterFirst ln ":") :: out)
        else
          extractBlockAux headerL stops rest true out
      else extractBlockAux headerL stops rest false out
    else if stops.any (fun st => containsSub (pyLower l) st) then out.reverse
    else extractBlockAux headerL stops rest true (l :: out)

def extract_block (text : String) (header : String) (stops : List String) : Option String :=
  let headerL := pyLower header
  let stopsL := stops.map pyLower
  let out := extractBlockAux headerL stopsL (pySplitlines text) false []
  if out.isEmpty then none else clean_name (String.intercalate " " out)

/-! ## The orchestrator (`norm_from_azure`), structured-fields branch -/

/-- Field accessor `g`: `_safeval(doc.fields.get(name)) if doc.fields else
None`. -/
def docGet (d : AzDoc) (name : String) : Option AzVal :=
  if d.fields.isEmpty then none
  else
    match List.lookup name d.fields with
    | some f => safevalF f
    | none => none

/-- Header-field population of the structured branch (source lines 371-400):
vendor, customer, invoice metadata and the three header totals, with the
`total = base + tax` completion when the total is missing. -/
def headerF (d : AzDoc) : FacturaNormalizada :=
  let g := docGet d
  let base := to_float_val (g "SubTotal")
  let igi := to_float_val (g "TotalTax")
  let total0 := to_float_val (g "InvoiceTotal")
  let total :=
    match total0, base, igi with
    | none, some b, some i => some (pyRound2 (b + i))
    | t, _, _ => t
  { proveedor_nombre := clean_name_val (g "VendorName")
    proveedor_nrt := pyOrOptS (try_extract_nrt (g "VendorTaxId")) (normalize_nrt_val (g "VendorTaxId"))
    proveedor_direccion := clean_name_val (g "VendorAddress")
    proveedor_razon_social := clean_name_val (g "VendorAddressRecipient")
    cliente_nombre := clean_name_val (g "CustomerName")
    cliente_nrt := pyOrOptS (try_extract_nrt (g "CustomerTaxId")) (normalize_nrt_val (g "CustomerTaxId"))
    cliente_direccion := clean_name_val (g "CustomerAddress")
    cliente_razon_social := clean_name_val (g "CustomerAddressRecipient")
    num_factura := clean_name_val (g "InvoiceId")
    fecha := (g "InvoiceDate").map azValToStr
    fecha_vencimiento := (g "DueDate").map azValToStr
    forma_pago := clean_name_val (g "PaymentTerm")
    moneda :=
      match g "CurrencyCode" with
      | some v => if truthyV (some v) then some (azValToStr v) else some "EUR"
      | none => some "EUR"
    base_imponible := base
    igi := igi
    total := total }

/-- The `Items` field as a list of item records, when it is one
(source lines 402-410). -/
def itemsOf (d : AzDoc) : Option (List AzItem) :=
  if d.fields.isEmpty then none
  else
    match List.lookup "Items" d.fields with
    | none => none
    | some fld =>
      match fld.value with
      | some (AzVal.lst its) => some its
      | some _ => none
      | none => none

/-- Tier 1: build one `Linea` from one structured item record (each
sub-field parsed independently; missing sub-fields yield null). -/
def lineaFromItem (it : AzItem) : Linea :=
  let p := fun (n : String) => (List.lookup n it.props).bind safevalI
  { descripcion := clean_name_scalar (p "Description")
    cantidad := to_float_scalar (p "Quantity")
    precio_unitario := to_float_scalar (p "UnitPrice")
    tipo_igi := to_float_scalar (p "TaxRate")
    total_linea := to_float_scalar (p "Amount") }

/-- Tier 1 over all item records: one reconciled line per record, in source
order, never discarding any record. -/
def tier1Lineas (its : List AzItem) : List Linea :=
  its.map (fun it => calc_missing_line_taxes (lineaFromItem it))

/-- The tier cascade of the structured branch: structured items, else table
grids, else free text. -/
def tierLineas (d : AzDoc) (result : AzResult) (tdoc : String) : List Linea :=
  let l1 :=
    match itemsOf d with
    | some its => tier1Lineas its
    | none => []
  if l1.isEmpty then
    let l2 := lines_from_tables result
    if l2.isEmpty then lines_from_text tdoc else l2
  else l1

/-- Synthetic-line fallback (both branches of the source): when no line
exists but header base and total do, fabricate a single line
`quantity = 1, unit_price = base, total = total`, with the rate estimated
from header tax/base when the base is truthy and the tax is known. -/
def syntheticStep (f : FacturaNormalizada) : FacturaNormalizada :=
  if f.lineas.isEmpty ∧ f.base_imponible ≠ none ∧ f.total ≠ none then
    let rate : Option ℚ :=
      match f.base_imponible, f.igi with
      | some b, some i => if b ≠ 0 then some (pyRound2 (i / b * 100)) else none
      | _, _ => none
    let linea := calc_missing_line_taxes
      { descripcion := clean_name (pyStrip ("Factura " ++ f.num_factura.getD ""))
        cantidad := some 1
        precio_unitario := f.base_imponible
        tipo_igi := rate
        total_linea := f.total }
    { f with lineas := f.lineas ++ [linea] }
  else f

/-- Per-line inverse base/tax accumulation of the header completion
(source lines 469-476): sum of rounded bases and of per-line rounded taxes,
over the lines that carry both a total and a rate. -/
def estimaTotales (ls : List Linea) : ℚ × ℚ :=
  ls.foldl (fun acc l =>
    match l.total_linea, l.tipo_igi with
    | some t, some rt =>
      let r := (normalize_igi_rate (some rt)).getD 0
      let base := pyRound2 (t / (1 + r / 100))
      (acc.1 + base, acc.2 + pyRound2 (base * (r / 100)))
    | _, _ => acc) (0, 0)

/-- Header completion from the lines (source lines 468-481): when the header
base is unknown and lines exist, derive base and tax from the lines, and the
total from them when it too is unknown; only applied when the derived base
is positive. -/
def completaTotales (f : FacturaNormalizada) : FacturaNormalizada :=
  if f.base_imponible = none ∧ ¬ f.lineas.isEmpty then
    let e := estimaTotales f.lineas
    if 0 < e.1 then
      let f' := { f with base_imponible := some (pyRound2 e.1), igi := some (pyRound2 e.2) }
      match f'.total with
      | none => { f' with total := some (pyRound2 (pyRound2 e.1 + pyRound2 e.2)) }
      | some _ => f'
    else f
  else f

/-- The distinct snapped rates of the lines that carry a rate
(`{normalize_igi_rate(l.tipo_igi) for l in f.lineas if l.tipo_igi is not None}`). -/
def tiposOf (ls : List Linea) : List ℚ :=
  (((ls.filterMap (·.tipo_igi)).map (fun rt => (normalize_igi_rate (some rt)).getD 0))).dedup

/-- Header tax-code step (source lines 483-484): a single distinct snapped
line rate yields the header code, anything else keeps the previous value. -/
def codigoStep (f : FacturaNormalizada) : FacturaNormalizada :=
  match tiposOf f.lineas with
  | [t] => { f with codigo_igi_sage := igi_code_from_rate (some t) }
  | _ => f

/-- The structured-fields branch of `norm_from_azure`
(source lines 369-487). -/
def norm_doc (d : AzDoc) (result : AzResult) : FacturaNormalizada :=
  let f0 := headerF d
  let tdoc := text_from_result result
  let f1 := { f0 with lineas := tierLineas d result tdoc }
  let f2 :=
    if f1.base_imponible = none ∨ f1.igi = none ∨ f1.total = none then
      fill_totals_from_text tdoc f1
    else f1
  let f3 := syntheticStep f2
  let f4 := completaTotales f3
  let f5 := codigoStep f4
  { f5 with clasificacion_sage := some (pyOrS f5.clasificacion_sage "Por revisar") }

/-! ## The no-documents branch of `norm_from_azure` (source lines 489-561) -/

/-- `RE_NRT_ANY = \b([AELF]-?\d{6}-?[A-Z])\b` (IGNORECASE), returning the
matched identifier verbatim. -/
def nrtAnySearchStr (s : String) : Option String :=
  let cs := s.toList
  (List.range (cs.length + 1)).findSome? (fun p =>
    if ¬ boundaryAt cs p then none
    else
      match charAt cs p with
      | some c0 =>
        if "aelf".toList.contains (pyLowerChar c0) then
          (optC '-' (cs.drop (p + 1))).findSome? (fun s1 =>
            let dStart := p + 1 + s1
            if 6 ≤ dRun (cs.drop dStart) then
              (optC '-' (cs.drop (dStart + 6))).findSome? (fun s2 =>
                let lPos := dStart + 6 + s2
                match charAt cs lPos with
                | some c1 =>
                  if isUpperAlphaCI c1 ∧ boundaryAt cs (lPos + 1) then
                    some (String.mk ((cs.drop p).take (lPos + 1 - p)))
                  else none
                | none => none)
            else none)
        else none
      | none => none)

def stopHeaders : List String :=
  ["enviar a", "facturar a", "nº de factura", "fecha", "nº de pedido",
   "fecha vencimiento", "subtotal", "iva", "total"]

/-- The pattern-searched metadata assignments of the OCR-only branch
(source lines 493-532), applied to the flattened text.  The source applies
these assignments one by one to a fresh record, guarding the bill-to,
ship-to and due-date assignments on their target field being still unset
and re-assigning the default currency on a currency hit; on a fresh record
every such guard holds and the currency assignment is the identity, so the
assignments are given directly per field.  The purchase-order assignment of
the source is dead code (`hasattr(f, "num_pedido")` is false for
`FacturaNormalizada`). -/
def noDocMeta (t : String) : FacturaNormalizada :=
  let bill := extract_block t "Facturar a" stopHeaders
  let ship := extract_block t "Enviar a" stopHeaders
  { proveedor_nombre :=
      match empresaSearch t with
      | some g1 => clean_name g1
      | none => none
    proveedor_nrt :=
      match nrtAnySearchStr t with
      | some g1 => normalize_nrt (some g1)
      | none => none
    num_factura :=
      match facturaIdSearch t with
      | some g1 => some (pyStripChars [' ', ':', '-', '/'] g1)
      | none => none
    fecha :=
      match fechaSearch t with
      | some g1 => some (replaceStr g1 "-" "/")
      | none => none
    moneda := some "EUR"
    cliente_nombre :=
      match bill with
      | some b => clean_name ((splitOnStr b ", ").headD "")
      | none => none
    cliente_direccion :=
      match bill with
      | some b =>
        let parts := splitOnStr b ", "
        clean_name (if parts.length < 2 then b
                    else String.intercalate ", " (parts.drop 1))
      | none => none
    cliente_razon_social :=
      match ship with
      | some sh => clean_name sh
      | none => none
    fecha_vencimiento :=
      match dueSearch t with
      | some g2 => some (replaceStr g2 "-" "/")
      | none => none }

/-- The OCR-only branch: pattern-searched metadata, text totals, table/text
line tiers and the synthetic fallback; the classification placeholder is
unconditional. -/
def norm_no_doc (result : AzResult) : FacturaNormalizada :=
  let t := text_from_result result
  let f := fill_totals_from_text t (noDocMeta t)
  let l2 := lines_from_tables result
  let f := { f with lineas := if l2.isEmpty then lines_from_text t else l2 }
  let f := syntheticStep f
  { f with clasificacion_sage := some "Por revisar" }

/-- `norm_from_azure`: dispatch on the presence of analyzed documents
(an empty document list is falsy and takes the OCR-only branch). -/
def norm_from_azure (result : AzResult) : FacturaNormalizada :=
  match result.documents with
  | [] => norm_no_doc result
  | d :: _ => norm_doc d result

/-! ## Frame lemmas about the pipeline steps -/

theorem calc_preserves_core (l : Linea) :
    (calc_missing_line_taxes l).descripcion = l.descripcion ∧
    (calc_missing_line_taxes l).cantidad = l.cantidad ∧
    (calc_missing_line_taxes l).precio_unitario = l.precio_unitario ∧
    (calc_missing_line_taxes l).tipo_igi = l.tipo_igi ∧
    (calc_missing_line_taxes l).cuenta_sage = l.cuenta_sage := by
  unfold calc_missing_line_taxes
  repeat' split
  all_goals simp [normalize_igi_rate]

theorem fillTotStep_rate (f : FacturaNormalizada) (s : TotGuess) (ln : String) :
    (fillTotStep f s ln).rate = s.rate := by
  simp only [fillTotStep, reIvaLineGroup2]
  repeat' split
  all_goals rfl

theorem fillTot_fold_rate (f : FacturaNormalizada) (L : List String) (s : TotGuess) :
    (L.foldl (fillTotStep f) s).rate = s.rate := by
  induction L generalizing s with
  | nil => rfl
  | cons ln rest ih => rw [List.foldl_cons, ih, fillTotStep_rate]

theorem fill_totals_codigo (t : String) (f : FacturaNormalizada) :
    (fill_totals_from_text t f).codigo_igi_sage = f.codigo_igi_sage := by
  simp only [fill_totals_from_text, fillTot_fold_rate]
  repeat' split
  all_goals rfl

theorem fill_totals_lineas (t : String) (f : FacturaNormalizada) :
    (fill_totals_from_text t f).lineas = f.lineas := by
  simp only [fill_totals_from_text, fillTot_fold_rate]
  repeat' split
  all_goals rfl

theorem synthetic_codigo (f : FacturaNormalizada) :
    (syntheticStep f).codigo_igi_sage = f.codigo_igi_sage := by
  simp only [syntheticStep]
  repeat' split
  all_goals rfl

theorem synthetic_lineas_of_ne (f : FacturaNormalizada) (h : ¬ f.lineas.isEmpty) :
    (syntheticStep f).lineas = f.lineas := by
  simp only [syntheticStep]
  split
  · next hc => exact absurd hc.1 h
  · rfl

theorem completa_lineas (f : FacturaNormalizada) :
    (completaTotales f).lineas = f.lineas := by
  simp only [completaTotales]
  repeat' split
  all_goals rfl

theorem completa_codigo (f : FacturaNormalizada) :
    (completaTotales f).codigo_igi_sage = f.codigo_igi_sage := by
  simp only [completaTotales]
  repeat' split
  all_goals rfl

theorem codigoStep_lineas (f : FacturaNormalizada) :
    (codigoStep f).lineas = f.lineas := by
  simp only [codigoStep]
  repeat' split
  all_goals rfl

theorem lookup_ne_nil {α β : Type} [BEq α] {name : α} {l : List (α × β)} {v : β}
    (h : List.lookup name l = some v) : l ≠ [] := by
  intro hnil
  rw [hnil] at h
  simp [List.lookup] at h

theorem fill_cond_lineas (c : Prop) [Decidable c] (t : String) (f : FacturaNormalizada) :
    (if c then fill_totals_from_text t f else f).lineas = f.lineas := by
  split
  · exact fill_totals_lineas t f
  · rfl

theorem fill_cond_codigo (c : Prop) [Decidable c] (t : String) (f : FacturaNormalizada) :
    (if c then fill_totals_from_text t f else f).codigo_igi_sage = f.codigo_igi_sage := by
  split
  · exact fill_totals_codigo t f
  · rfl

theorem noDocMeta_codigo (t : String) : (noDocMeta t).codigo_igi_sage = none := by
  simp only [noDocMeta]

theorem norm_no_doc_codigo (result : AzResult) :
    (norm_no_doc result).codigo_igi_sage = none := by
  simp only [norm_no_doc, synthetic_codigo, fill_totals_codigo, noDocMeta_codigo]

/-! ## Concrete inputs used by the claim theorems -/

/-- A result with non-empty key-value pairs, a table, structured header
totals and one structured item (C1). -/
def c1res : AzResult :=
  { documents := [{ fields :=
      [("SubTotal", { value := some (AzVal.n 100) }),
       ("TotalTax", { value := some (AzVal.n (19/2)) }),
       ("InvoiceTotal", { value := some (AzVal.n (219/2)) }),
       ("Items", { value := some (AzVal.lst
         [{ props := [("Description", { value := some (AzScalar.s "A") }),
                      ("Amount", { value := some (AzScalar.n 5) })] }]) })] }],
    pages := [{ tables := [{ cells :=
      [{ row_index := 0, column_index := 0, content := some "Concepto" }] }] }],
    key_value_pairs := [{ key := some "Untitled", value := some "42" }] }

/-- A structured result whose `Items` list holds a single record with no
sub-fields at all (C2). -/
def c2res : AzResult :=
  { documents := [{ fields :=
      [("SubTotal", { value := some (AzVal.n 100) }),
       ("TotalTax", { value := some (AzVal.n (19/2)) }),
       ("InvoiceTotal", { value := some (AzVal.n (219/2)) }),
       ("Items", { value := some (AzVal.lst [{ props := [] }]) })] }] }

/-- A structured result with two ordinary items (C2 witness). -/
def c2wres : AzResult :=
  { documents := [{ fields :=
      [("Items", { value := some (AzVal.lst
        [{ props := [("Description", { value := some (AzScalar.s "A") }),
                     ("Quantity", { value := some (AzScalar.n 2) }),
                     ("UnitPrice", { value := some (AzScalar.n 10) }),
                     ("TaxRate", { value := some (AzScalar.n (19/2)) })] },
         { props := [("Description", { value := some (AzScalar.s "B") }),
                     ("Amount", { value := some (AzScalar.n 5) })] }]) })] }] }

/-- The table row of the C3 counterexample: a composite quantity cell
`2 x 5,00` next to an explicit unit-price column `7,00`. -/
def c3row : List String := ["widget", "2 x 5,00", "7,00", "21,90"]

/-- The line produced from `c3row` (used by the C3 witness). -/
def c3linea : Linea :=
  { descripcion := some "widget", cantidad := some 2, precio_unitario := some 5,
    tipo_igi := none, importe_igi := none, total_linea := some (219/10),
    cuenta_sage := none, codigo_igi_sage := none }

/-- A table whose quantity column embeds `qty x price` and whose unit-price
column holds a parseable, different price (C3). -/
def c3res : AzResult :=
  { pages := [{ tables := [{ cells :=
      [{ row_index := 0, column_index := 0, content := some "Descripcion" },
       { row_index := 0, column_index := 1, content := some "Cantidad" },
       { row_index := 0, column_index := 2, content := some "Precio" },
       { row_index := 0, column_index := 3, content := some "Importe" },
       { row_index := 1, column_index := 0, content := some "widget" },
       { row_index := 1, column_index := 1, content := some "2 x 5,00" },
       { row_index := 1, column_index := 2, content := some "7,00" },
       { row_index := 1, column_index := 3, content := some "21,90" }] }] }] }

/-- The C5 scenario: header `SubTotal = 100.00` and `InvoiceTotal = 109.50`,
no `TotalTax`, no items, no tables, no OCR text. -/
def c5res : AzResult :=
  { documents := [{ fields :=
      [("SubTotal", { value := some (AzVal.n 100) }),
       ("InvoiceTotal", { value := some (AzVal.n (219/2)) })] }] }

/-- A structured result whose items carry rates 9.5 and (missing): not all
lines share one snapped rate, yet exactly one distinct non-null rate
exists (C6 counterexample). -/
def c6res : AzResult :=
  { documents := [{ fields :=
      [("SubTotal", { value := some (AzVal.n 60) }),
       ("TotalTax", { value := some (AzVal.n (57/10)) }),
       ("InvoiceTotal", { value := some (AzVal.n (657/10)) }),
       ("Items", { value := some (AzVal.lst
         [{ props := [("Description", { value := some (AzScalar.s "A") }),
                      ("Quantity", { value := some (AzScalar.n 2) }),
                      ("UnitPrice", { value := some (AzScalar.n 10) }),
                      ("TaxRate", { value := some (AzScalar.n (19/2)) })] },
          { props := [("Description", { value := some (AzScalar.s "B") }),
                      ("Amount", { value := some (AzScalar.n 5) })] }]) })] }] }

/-- A structured result with two lines at distinct snapped rates 9.5 and
4.5 (C6, mixed-rate part). -/
def c6mix : AzResult :=
  { documents := [{ fields :=
      [("SubTotal", { value := some (AzVal.n 60) }),
       ("TotalTax", { value := some (AzVal.n (57/10)) }),
       ("InvoiceTotal", { value := some (AzVal.n (657/10)) }),
       ("Items", { value := some (AzVal.lst
         [{ props := [("Quantity", { value := some (AzScalar.n 2) }),
                      ("UnitPrice", { value := some (AzScalar.n 10) }),
                      ("TaxRate", { value := some (AzScalar.n (19/2)) })] },
          { props := [("Quantity", { value := some (AzScalar.n 1) }),
                      ("UnitPrice", { value := some (AzScalar.n 10) }),
                      ("TaxRate", { value := some (AzScalar.n (9/2)) })] }]) })] }] }

/-- Header-less record with two lines carrying totals 21.90 / 43.80 at
rate 9.5 (C9 witness). -/
def f9c : FacturaNormalizada :=
  { lineas := [{ total_linea := some (219/10), tipo_igi := some (19/2) },
               { total_linea := some (219/5), tipo_igi := some (19/2) }] }

/-! ## Claim theorems -/

/-- C4 counterexample.  The claim states that the money parser accepts
dot-grouped thousands separators such as `"1.234,56"`; in fact the
comma-to-dot conversion of `_to_float` produces `"1.234.56"`, which fails to
parse, so the parser returns null on exactly that example instead of
1234.56. -/
theorem c4_counterexample :
    parse_money "1.234,56" = none ∧ parse_money "1.234,56" ≠ some (30864/25) := by
  decide

/-- C4 amended.  `parse_money` strips currency symbols, accepts comma- and
dot-decimal separators and space thousands separators, returns the last
numeric substring (`"IVA 21% (-504,00€)"` gives −504.00, not the
percentage), and returns null both on text without a numeric substring and
on dot-grouped thousands numerals such as `"1.234,56"`. -/
theorem c4_amended :
    parse_money "IVA 21% (-504,00€)" = some (-504) ∧
    parse_money "199,65" = some (3993/20) ∧
    parse_money "199.65" = some (3993/20) ∧
    parse_money "1 234,56" = some (30864/25) ∧
    parse_money "21%" = some 21 ∧
    parse_money "abc" = none ∧
    parse_money "" = none ∧
    parse_money "1.234,56" = none := by
  decide

/-- C7.  For a line with quantity 2, unit price 10.00, tax rate 9.5 and all
derived fields unset, per-line reconciliation yields base 20.00
(= `round(2×10, 2)`), tax amount 1.90, line total 21.90 and the code
`IGI_9_5`, leaving the input fields unchanged. -/
theorem c7_line_reconciliation :
    calc_missing_line_taxes
      { cantidad := some 2, precio_unitario := some 10, tipo_igi := some (19/2) } =
      { cantidad := some 2, precio_unitario := some 10, tipo_igi := some (19/2),
        importe_igi := some (19/10), total_linea := some (219/10),
        codigo_igi_sage := some "IGI_9_5" } ∧
    pyRound2 (2 * 10) = 20 := by
  decide

/-- C8.  Per-line reconciliation is idempotent: a second application of
`_calc_missing_line_taxes` to the result of a first application changes no
field, for every line. -/
theorem c8_calc_idempotent (l : Linea) :
    calc_missing_line_taxes (calc_missing_line_taxes l) = calc_missing_line_taxes l := by
  rcases l with ⟨d, c, p, t, i, tl, cu, cg⟩
  cases c <;> cases p <;> cases t <;> cases tl <;>
    simp [calc_missing_line_taxes, normalize_igi_rate]

/-- C1.  The normalizer never copies the raw extraction into the record's
mirror fields: on `c1res`, whose result carries a non-empty key-value pair
list, a non-empty table list, structured fields and items, the returned
record's `azure_kv_pairs`, `azure_tables`, `azure_fields` and `azure_items`
are all empty — they are the schema defaults, not a verbatim mirror of the
extraction, contradicting the spec's mirror requirement. -/
theorem c1_mirror_not_copied :
    (norm_from_azure c1res).azure_kv_pairs = [] ∧
    (norm_from_azure c1res).azure_tables = [] ∧
    (norm_from_azure c1res).azure_fields = [] ∧
    (norm_from_azure c1res).azure_items = [] ∧
    c1res.key_value_pairs ≠ [] ∧
    c1res.pages.flatMap (·.tables) ≠ [] := by
  refine ⟨rfl, rfl, rfl, rfl, by decide, by decide⟩

/-- C2 counterexample.  On `c2res`, whose `Items` list holds one record with
no sub-fields, the returned record retains a line whose description,
quantity, unit price, tax rate and amount are all null — the claim says such
a line is discarded and never appears in the returned record. -/
theorem c2_counterexample :
    (norm_from_azure c2res).lineas =
      [{ descripcion := none, cantidad := none, precio_unitario := none,
         tipo_igi := none, importe_igi := none, total_linea := none,
         cuenta_sage := none, codigo_igi_sage := none }] := by
  decide

/-- C3 counterexample.  On `c3res`, the quantity cell `2 x 5,00` embeds unit
price 5.00 and the explicitly mapped unit-price column holds `7,00`, which
parses to 7.00; the produced line carries unit price 5.00 — the embedded
value wins even though the explicit column value parses to non-null,
contradicting the claimed priority. -/
theorem c3_counterexample :
    lines_from_tables c3res = [c3linea] ∧
    to_float_str "7,00" = some 7 ∧
    c3linea.precio_unitario = some 5 := by
  refine ⟨by decide, by decide, rfl⟩

/-- C5 counterexample.  In the claimed scenario (`SubTotal = 100.00`,
`InvoiceTotal = 109.50`, no items/tables/text) the header tax is unknown, so
the synthetic line's tax rate is null — not ≈ 9.5 as the claim asserts for
this scenario. -/
theorem c5_counterexample :
    (norm_from_azure c5res).lineas.map (·.tipo_igi) = [none] ∧
    (norm_from_azure c5res).lineas.map (·.tipo_igi) ≠ [some (19/2)] := by
  refine ⟨by decide, by decide⟩

/-- C5 amended.  The scenario yields exactly one synthetic line with
quantity 1, unit price 100.00 and line total 109.50; its tax rate follows
the rule `round(tax/base × 100, 2)` only when both header tax and base are
known — here the header tax is unknown, so the rate (and hence the derived
tax fields) are null. -/
theorem c5_amended :
    (norm_from_azure c5res).lineas =
      [{ descripcion := some "Factura", cantidad := some 1,
         precio_unitario := some 100, tipo_igi := none, importe_igi := none,
         total_linea := some (219/2), cuenta_sage := none,
         codigo_igi_sage := none }] ∧
    (norm_from_azure c5res).base_imponible = some 100 ∧
    (norm_from_azure c5res).igi = none ∧
    (norm_from_azure c5res).total = some (219/2) := by
  refine ⟨by decide, rfl, rfl, rfl⟩

/-- C6 counterexample.  On `c6res` the two lines do not all share a single
identical snapped rate (the second line's rate is null), yet the header
tax code is set to `IGI_9_5` — the header code is derived from the distinct
non-null snapped rates only, not from all lines. -/
theorem c6_counterexample :
    (norm_from_azure c6res).codigo_igi_sage = some "IGI_9_5" ∧
    (norm_from_azure c6res).lineas.map (·.tipo_igi) = [some (19/2), none] := by
  refine ⟨by decide, by decide⟩

/-- C2 amended.  Tier 1 never discards an item record: for every result
whose first document carries a list-valued non-empty `Items` field, the
returned record's line list is exactly one reconciled line per item record,
in source order — including records whose parsed core fields are all null
(see the counterexample), which the claim said would be discarded. -/
theorem c2_amended (result : AzResult) (d : AzDoc) (rest : List AzDoc)
    (fld : AzField) (its : List AzItem)
    (hdoc : result.documents = d :: rest)
    (hfld : List.lookup "Items" d.fields = some fld)
    (hval : fld.value = some (AzVal.lst its))
    (hne : its ≠ []) :
    (norm_from_azure result).lineas =
      its.map (fun it => calc_missing_line_taxes (lineaFromItem it)) := by
  have hfe : d.fields.isEmpty = false := by
    cases hf : d.fields
    · rw [hf] at hfld; simp [List.lookup] at hfld
    · rfl
  have hitems : itemsOf d = some its := by
    unfold itemsOf
    simp [hfe, hfld, hval]
  have htier : ∀ td, tierLineas d result td = tier1Lineas its := by
    intro td
    unfold tierLineas
    rw [hitems]
    have : (tier1Lineas its).isEmpty = false := by
      cases hits : its
      · exact absurd hits hne
      · rfl
    simp [this]
  unfold norm_from_azure
  rw [hdoc]
  simp only [norm_doc, htier]
  rw [codigoStep_lineas, completa_lineas, synthetic_lineas_of_ne, fill_cond_lineas]
  · simp [tier1Lineas]
  · rw [fill_cond_lineas]
    cases hits : its
    · exact absurd hits hne
    · simp [tier1Lineas, hits]

/-- C2 amended witness: on a two-item document the returned lines are
exactly the two reconciled item lines in order. -/
theorem c2_amended_witness :
    (norm_from_azure c2wres).lineas =
      [calc_missing_line_taxes (lineaFromItem { props :=
          [("Description", { value := some (AzScalar.s "A") }),
           ("Quantity", { value := some (AzScalar.n 2) }),
           ("UnitPrice", { value := some (AzScalar.n 10) }),
           ("TaxRate", { value := some (AzScalar.n (19/2)) })] }),
       calc_missing_line_taxes (lineaFromItem { props :=
          [("Description", { value := some (AzScalar.s "B") }),
           ("Amount", { value := some (AzScalar.n 5) })] })] := by
  have h := c2_amended c2wres
    { fields := [("Items", { value := some (AzVal.lst
        [{ props := [("Description", { value := some (AzScalar.s "A") }),
                     ("Quantity", { value := some (AzScalar.n 2) }),
                     ("UnitPrice", { value := some (AzScalar.n 10) }),
                     ("TaxRate", { value := some (AzScalar.n (19/2)) })] },
         { props := [("Description", { value := some (AzScalar.s "B") }),
                     ("Amount", { value := some (AzScalar.n 5) })] }]) })] }
    [] _ _ rfl rfl rfl (by decide)
  simpa using h

/-- C3 amended.  In the table tier, when the quantity cell embeds a
`qty x price` composite, the embedded unit price always wins: every line
produced from such a row carries the embedded unit price, and the
explicitly mapped unit-price column is consulted only when the quantity
cell yields no embedded unit. -/
theorem c3_amended (i_desc i_qty i_unit i_tax i_amt : Option Nat)
    (r : List String) (u : ℚ)
    (hu : (extract_qty_unit (cellOpt r i_qty)).2 = some u)
    (linea : Linea)
    (hrow : tableRowLinea i_desc i_qty i_unit i_tax i_amt r = some linea) :
    linea.precio_unitario = some u := by
  simp only [tableRowLinea] at hrow
  split at hrow
  · exact absurd hrow (by simp)
  · rw [hu] at hrow
    obtain rfl := Option.some.inj hrow
    rw [(calc_preserves_core _).2.2.1]

/-- C3 amended witness: the concrete row of the counterexample, whose
quantity cell `2 x 5,00` embeds unit price 5, produces a line with unit
price 5 even though the unit column holds `7,00`. -/
theorem c3_amended_witness :
    (extract_qty_unit (cellOpt c3row (some 1))).2 = some 5 ∧
    tableRowLinea (some 0) (some 1) (some 2) none (some 3) c3row = some c3linea ∧
    c3linea.precio_unitario = some 5 := by
  refine ⟨by decide, by decide, ?_⟩
  exact c3_amended (some 0) (some 1) (some 2) none (some 3) c3row 5 (by decide)
    c3linea (by decide)

theorem codigoStep_char (f : FacturaNormalizada) (h : f.codigo_igi_sage = none) :
    (codigoStep f).codigo_igi_sage =
      (match tiposOf (codigoStep f).lineas with
       | [t] => igi_code_from_rate (some t)
       | _ => none) := by
  rw [codigoStep_lineas]
  unfold codigoStep
  split
  · rfl
  · exact h

theorem norm_doc_codigo_char (d : AzDoc) (result : AzResult) :
    (norm_doc d result).codigo_igi_sage =
      (match tiposOf (norm_doc d result).lineas with
       | [t] => igi_code_from_rate (some t)
       | _ => none) := by
  exact codigoStep_char _ (by rw [completa_codigo, synthetic_codigo, fill_cond_codigo]; rfl)

/-- C6 amended.  The header tax code is characterized for every input: in
the OCR-only branch it is always null; in the structured branch it is set
exactly when the lines that carry a non-null rate have exactly one distinct
snapped rate among them (null-rate lines are ignored, see counterexample),
and a document with two distinct non-null snapped rates keeps a null header
code even though each of its lines carries a non-null per-line code. -/
theorem c6_amended :
    (∀ result : AzResult,
      (norm_from_azure result).codigo_igi_sage =
        (match result.documents, tiposOf (norm_from_azure result).lineas with
         | [], _ => none
         | _ :: _, [t] => igi_code_from_rate (some t)
         | _ :: _, _ => none)) ∧
    (norm_from_azure c6mix).codigo_igi_sage = none ∧
    (norm_from_azure c6mix).lineas.map (·.codigo_igi_sage) =
      [some "IGI_9_5", some "IGI_4_5"] := by
  refine ⟨?_, by decide, by decide⟩
  intro result
  cases hdoc : result.documents with
  | nil =>
    simp only [norm_from_azure, hdoc]
    exact norm_no_doc_codigo result
  | cons d rest =>
    simp only [norm_from_azure, hdoc]
    rw [norm_doc_codigo_char]
    cases hts : tiposOf ((norm_doc d result).lineas) with
    | nil => rfl
    | cons t ts => cases ts <;> rfl

/-- C9.  When the header base is unknown and lines exist, header
reconciliation sums the per-line bases obtained by inverting snapped rate
and total (lines missing either are skipped inside `estimaTotales`), and if
that sum is positive sets the header base and tax from it and completes the
header total to base + tax exactly when it was unknown. -/
theorem c9_header_from_lines (f : FacturaNormalizada)
    (hbase : f.base_imponible = none) (hne : f.lineas ≠ [])
    (hpos : 0 < (estimaTotales f.lineas).1) :
    (completaTotales f).base_imponible = some (pyRound2 (estimaTotales f.lineas).1) ∧
    (completaTotales f).igi = some (pyRound2 (estimaTotales f.lineas).2) ∧
    (completaTotales f).total =
      (if f.total = none
       then some (pyRound2 (pyRound2 (estimaTotales f.lineas).1 +
                            pyRound2 (estimaTotales f.lineas).2))
       else f.total) := by
  have hemp : ¬ (f.lineas.isEmpty = true) := by
    cases hl : f.lineas
    · exact absurd hl hne
    · simp
  unfold completaTotales
  rw [if_pos ⟨hbase, hemp⟩, if_pos hpos]
  cases htot : f.total with
  | none => simp [htot]
  | some t => simp [htot]

/-- C9 witness: two lines with totals 21.90 and 43.80 at snapped rate 9.5
and no header figures give header base 60.00, tax 5.70 and total 65.70. -/
theorem c9_witness :
    f9c.base_imponible = none ∧ 0 < (estimaTotales f9c.lineas).1 ∧
    (completaTotales f9c).base_imponible = some 60 ∧
    (completaTotales f9c).igi = some (57/10) ∧
    (completaTotales f9c).total = some (657/10) := by
  have h := c9_header_from_lines f9c rfl (by decide) (by decide)
  refine ⟨rfl, by decide, ?_, ?_, ?_⟩
  · rw [h.1]; decide
  · rw [h.2.1]; decide
  · rw [h.2.2]; decide

/-- C10.  Per-line reconciliation writes only the three derived fields
(`importe_igi`, `total_linea`, `codigo_igi_sage`): it preserves the
description, quantity, unit price, tax rate, and the externally assigned
account code.  No later step of the normalization core mutates a line: the
free-text totals fallback, the header completion and the header tax-code
step leave the line list unchanged, and the synthetic-line fallback either
leaves the lines unchanged or creates the single synthetic line when none
existed. -/
theorem c10_frame :
    (∀ l : Linea,
      (calc_missing_line_taxes l).descripcion = l.descripcion ∧
      (calc_missing_line_taxes l).cantidad = l.cantidad ∧
      (calc_missing_line_taxes l).precio_unitario = l.precio_unitario ∧
      (calc_missing_line_taxes l).tipo_igi = l.tipo_igi ∧
      (calc_missing_line_taxes l).cuenta_sage = l.cuenta_sage) ∧
    (∀ t f, (fill_totals_from_text t f).lineas = f.lineas) ∧
    (∀ f, (completaTotales f).lineas = f.lineas) ∧
    (∀ f, (codigoStep f).lineas = f.lineas) ∧
    (∀ f : FacturaNormalizada, (syntheticStep f).lineas = f.lineas ∨
      (f.lineas = [] ∧ (syntheticStep f).lineas.length = 1)) := by
  refine ⟨calc_preserves_core, fill_totals_lineas, completa_lineas,
          codigoStep_lineas, ?_⟩
  intro f
  unfold syntheticStep
  split
  · next hc =>
    right
    have hl : f.lineas = [] := by
      cases hl : f.lineas
      · rfl
      · rw [hl] at hc; exact absurd hc.1 (by simp)
    exact ⟨hl, by simp [hl]⟩
  · left; rfl

end GauditOCR
